import Mathlib

/-!
Verification development for the maya-asset-validator repository.

The Python sources under `src/core` and `src/ui` are shallowly embedded here.
The Maya scene (the host object model queried through `maya.cmds`) is modelled
by the `Scene` structure: node listings, attribute values, the face/vertex
table served by `polyInfo`, the filesystem seen by `os.path.exists`, and the
outcomes of host-side operations (`polySelectConstraint` selections, the
auto-fix commands).  Python floats are modelled as exact rationals, and the
host's numeric formatting is modelled by an explicit printer.  Mutable session
state touched by the checks (the active selection and the poly selection
constraint) is threaded explicitly through `SessionState`.

String primitives used by the Python code (`str.split`, `str.replace`,
`str.strip`, `str.lower`, `in`, `str.startswith`) are implemented here
structurally over `List Char` so that every definition evaluates by kernel
reduction.
-/

namespace AssetValidator

/-- Splits a character list at every occurrence of `c`, like Python
`str.split(c)` for a one-character separator: `"|a|b"` gives `["", "a", "b"]`. -/
def splitOnChar (c : Char) : List Char → List (List Char)
  | [] => [[]]
  | x :: xs =>
    match splitOnChar c xs with
    | [] => [[]]
    | h :: t => if x = c then [] :: h :: t else (x :: h) :: t

/-- Python `node.split("|")[-1]`: the short name of a DAG path. -/
def shortNameOf (p : String) : String := ⟨(splitOnChar '|' p.data).getLastD []⟩

/-- Python `os.path.basename` for forward-slash paths: the last `/`-component. -/
def basenameOf (p : String) : String := ⟨(splitOnChar '/' p.data).getLastD []⟩

/-- Substring test over character lists; `containsSub pat l` is Python
`pat in l` for strings. -/
def containsSub (pat : List Char) : List Char → Bool
  | [] => pat.isEmpty
  | x :: t => pat.isPrefixOf (x :: t) || containsSub pat t

/-- Python `pat in s` on strings. -/
def pyContains (s pat : String) : Bool := containsSub pat.data s.data

/-- Replaces every (leftmost, non-overlapping) occurrence of `pat` by `rep`,
structurally: the `Nat` argument counts characters of a matched pattern still
to be skipped. -/
def replaceSubAux (pat rep : List Char) : List Char → Nat → List Char
  | [], _ => []
  | _ :: t, skip + 1 => replaceSubAux pat rep t skip
  | c :: t, 0 =>
    if pat.isPrefixOf (c :: t) then rep ++ replaceSubAux pat rep t (pat.length - 1)
    else c :: replaceSubAux pat rep t 0

/-- Python `s.replace(pat, rep)` for a non-empty pattern. -/
def pyReplace (s pat rep : String) : String := ⟨replaceSubAux pat.data rep.data s.data 0⟩

/-- Python `s.strip()`: drop whitespace from both ends. -/
def pyStrip (s : String) : String :=
  ⟨((s.data.dropWhile Char.isWhitespace).reverse.dropWhile Char.isWhitespace).reverse⟩

/-- Python falsiness of `s.strip()`: the string is empty or whitespace-only. -/
def isBlank (s : String) : Bool := (pyStrip s).data.isEmpty

/-- Python `s.lower()`. -/
def lowerStr (s : String) : String := ⟨s.data.map Char.toLower⟩

/-- Python `s.startswith(p)`. -/
def pyStartswith (s p : String) : Bool := p.data.isPrefixOf s.data

/-- Lexicographic strict order on character lists (Python string `<`). -/
def charsLtB : List Char → List Char → Bool
  | [], [] => false
  | [], _ :: _ => true
  | _ :: _, [] => false
  | a :: as, b :: bs => if a = b then charsLtB as bs else decide (a < b)

/-- Insertion step of `sortStrings`. -/
def insertSorted (x : String) : List String → List String
  | [] => [x]
  | y :: ys => if charsLtB y.data x.data then y :: insertSorted x ys else x :: y :: ys

/-- Python `sorted` on a list of strings (insertion sort, lexicographic). -/
def sortStrings : List String → List String
  | [] => []
  | x :: xs => insertSorted x (sortStrings xs)

/-- The decimal digit character for `n`, for `n < 10` (and `'9'` above). -/
def digitChar (n : Nat) : Char :=
  if n = 0 then '0' else if n = 1 then '1' else if n = 2 then '2' else if n = 3 then '3'
  else if n = 4 then '4' else if n = 5 then '5' else if n = 6 then '6'
  else if n = 7 then '7' else if n = 8 then '8' else '9'

/-- Fuelled decimal rendering of a natural number (most significant digit
first); `fuel` bounds the number of digits produced. -/
def natStrAux : Nat → Nat → List Char → List Char
  | _, 0, acc => acc
  | n, fuel + 1, acc =>
    if n < 10 then digitChar n :: acc
    else natStrAux (n / 10) fuel (digitChar (n % 10) :: acc)

/-- Decimal rendering of a natural number, as Python `str(n)` prints it. -/
def natStr (n : Nat) : String := ⟨natStrAux n (n + 1) []⟩

/-- Decimal rendering of an integer. -/
def intStr (i : Int) : String := if i < 0 then "-" ++ natStr i.natAbs else natStr i.natAbs

/-- Printer for the rationals that model Python floats (Python's own float
formatting, `round`/`:.3f`, is host behaviour; this printer stands in for it). -/
def fmtRat (q : Rat) : String := intStr q.num ++ "/" ++ natStr q.den

/-- Printer for a modelled float triple, standing in for Python tuple printing. -/
def fmtTriple (v : Rat × Rat × Rat) : String :=
  "(" ++ fmtRat v.1 ++ ", " ++ fmtRat v.2.1 ++ ", " ++ fmtRat v.2.2 ++ ")"

/-- Comparison `a < b` on rationals computed by cross multiplication (kernel
reducible, unlike the library's arithmetic on `Rat`). -/
def ratLtB (a b : Rat) : Bool := decide (a.num * (b.den : Int) < b.num * (a.den : Int))

/-- Negation of a rational, via `mkRat`. -/
def ratNeg (q : Rat) : Rat := mkRat (-q.num) q.den

/-- Python `abs` on a modelled float. -/
def ratAbs (q : Rat) : Rat := if ratLtB q 0 then ratNeg q else q

/-- Subtraction of rationals, via `mkRat` (kernel reducible). -/
def ratSub (a b : Rat) : Rat := mkRat (a.num * (b.den : Int) - b.num * (a.den : Int)) (a.den * b.den)

/-- Addition of rationals, via `mkRat` (kernel reducible). -/
def ratAdd (a b : Rat) : Rat := mkRat (a.num * (b.den : Int) + b.num * (a.den : Int)) (a.den * b.den)

/-- Multiplication of rationals, via `mkRat` (kernel reducible). -/
def ratMul (a b : Rat) : Rat := mkRat (a.num * b.num) (a.den * b.den)

/-- Multiplication by `0.5`, as in `(bb[0] + bb[3]) * 0.5`. -/
def ratHalf (q : Rat) : Rat := ratMul q (mkRat 1 2)

/-- A validation result dict as built by the `_error` / `_warning` / `_info`
helpers of every check module: exactly the keys `level`, `node`, `message`. -/
structure Result where
  level : String
  node : String
  message : String
deriving DecidableEq

/-- A general string-valued Python dict, as an association list in insertion
order (used where the code accepts arbitrary result dicts). -/
abbrev Dict := List (String × String)

/-- The dict a `Result` denotes, with its keys in construction order. -/
def Result.toDict (r : Result) : Dict :=
  [("level", r.level), ("node", r.node), ("message", r.message)]

/-- A Maya shape node as the checks query it: `cmds.nodeType`, the
`intermediateObject` attribute, the `polyInfo -faceToVertex` table (vertex ids
of each face, in face order, as served for `shape.f[i]`), and the
`shadingEngine` connections returned by `cmds.listConnections`. -/
structure ShapeNode where
  path : String
  nodeType : String
  intermediateObject : Bool
  faces : List (List Nat)
  shadingEngines : List String
deriving DecidableEq

/-- A Maya transform node: long DAG path, child shapes (`cmds.listRelatives
shapes=True`), the `translate` / `rotate` / `scale` attributes, the world
bounding box (min corner, max corner) from `cmds.exactWorldBoundingBox`
(`none` models the query raising), and the world rotate pivot from
`cmds.xform -q -ws -rp` (`none` models the query raising). -/
structure TransformNode where
  path : String
  shapes : List ShapeNode
  translate : Rat × Rat × Rat
  rotate : Rat × Rat × Rat
  scale : Rat × Rat × Rat
  bbox : Option ((Rat × Rat × Rat) × (Rat × Rat × Rat))
  rotatePivotWorld : Option (Rat × Rat × Rat)
deriving DecidableEq

/-- A `file` texture node: `cmds.objExists(f + ".fileTextureName")` and the
attribute's value (`none` models `getAttr` returning `None`). -/
structure FileNode where
  name : String
  hasFileTextureName : Bool
  fileTextureName : Option String
deriving DecidableEq

/-- The loaded Maya scene together with the host behaviour the tool calls
into: `transforms` is `cmds.ls(type="transform", long=True)` in listing order
with each node's data; `fileNodes` is `cmds.ls(type="file")`; `diskPaths` is
the set of paths for which `os.path.exists` is true; `constrainedSelect t c`
is the component selection Maya produces when `t` is selected under the MEL
`polySelectConstraint` command `c`; `freezeOk` / `centerOk` tell whether
`makeIdentity` / `xform -centerPivots` succeed on a node, and the two
`deleteUnused` flags whether the HyperShade delete-unused command (and its
fallback) succeed.  The remaining fields feed the report metadata. -/
structure Scene where
  transforms : List TransformNode
  fileNodes : List FileNode
  diskPaths : List String
  constrainedSelect : String → String → List String
  freezeOk : String → Bool
  centerOk : String → Bool
  deleteUnusedPrimaryOk : Bool
  deleteUnusedFallbackOk : Bool
  scenePath : String
  mayaVersion : String
  userName : String
  machineName : String
  timestampLocal : String

/-- The mutable Maya session state the checks can touch: the active selection
(`cmds.select` / `cmds.ls(sl=True)`) and the active poly selection constraint
(`none` when disabled, `some c` after the MEL command `c` was evaluated). -/
structure SessionState where
  selection : List String
  constraint : Option String
deriving DecidableEq

/-- `cmds.ls(type="mesh", long=True)` paired with each shape's parent
transform path (the `_parent_transform` resolution), in scene order. -/
def meshShapePairs (s : Scene) : List (String × ShapeNode) :=
  s.transforms.flatMap (fun t =>
    (t.shapes.filter (fun sh => sh.nodeType == "mesh")).map (fun sh => (t.path, sh)))

namespace NamingChecks

/-- `naming_checks._error`. -/
def _error (node message : String) : Result := ⟨"ERROR", node, message⟩

/-- `naming_checks._warning`. -/
def _warning (node message : String) : Result := ⟨"WARNING", node, message⟩

/-- `naming_checks._info`. -/
def _info (node message : String) : Result := ⟨"INFO", node, message⟩

/-- The naming rules of one loop iteration other than the duplicate-name rule:
the uppercase rule, the per-shape `geo_` / `jnt_` rules, and the `grp_` rule
for shapeless transforms. -/
def otherRules (t : TransformNode) : List Result :=
  (if (shortNameOf t.path).data.any Char.isUpper then
    [_error t.path "Object name contains uppercase letters (use lowercase)"] else [])
  ++ t.shapes.flatMap (fun sh =>
      (if sh.nodeType == "mesh" && !(pyStartswith (shortNameOf t.path) "geo_") then
        [_warning t.path "Mesh transform should start with 'geo_'"] else [])
      ++ (if sh.nodeType == "joint" && !(pyStartswith (shortNameOf t.path) "jnt_") then
        [_warning t.path "Joint should start with 'jnt_'"] else []))
  ++ (if t.shapes.isEmpty && !(pyStartswith (shortNameOf t.path) "grp_") then
    [_info t.path "Empty transform should start with 'grp_'"] else [])

/-- The main loop of `run_naming_checks`, with the `seen_names` set carried
explicitly (membership is all that is used of it). -/
def run_naming_checksAux : List TransformNode → List String → List Result
  | [], _ => []
  | t :: rest, seen =>
    (if shortNameOf t.path ∈ seen then [_error t.path "Duplicate object name"] else [])
      ++ otherRules t
      ++ run_naming_checksAux rest
          (if shortNameOf t.path ∈ seen then seen else shortNameOf t.path :: seen)

/-- `naming_checks.run_naming_checks`. -/
def run_naming_checks (s : Scene) : List Result := run_naming_checksAux s.transforms []

/-- State-passing view of `run_naming_checks`: the function only queries the
scene and never selects or constrains, so the session state passes through. -/
def run_naming_checksSt (s : Scene) (st : SessionState) : List Result × SessionState :=
  (run_naming_checks s, st)

/-- Specification of the duplicate-name errors, written from the claim: one
`Duplicate object name` ERROR for a transform exactly when some transform
earlier in the listing carries the same short name (`pre` accumulates the
short names of all earlier transforms). -/
def dupSpecAux : List TransformNode → List String → List Result
  | [], _ => []
  | t :: rest, pre =>
    (if shortNameOf t.path ∈ pre then [_error t.path "Duplicate object name"] else [])
      ++ dupSpecAux rest (shortNameOf t.path :: pre)

/-- Duplicate-name errors a listing should produce, per the claim. -/
def dupSpec (l : List TransformNode) : List Result := dupSpecAux l []

/-- The duplicate-name errors among a result list. -/
def dupFilter (rs : List Result) : List Result :=
  rs.filter (fun r => r.message == "Duplicate object name")

/-- How many transforms of a listing carry the given short name. -/
def shortCount (l : List TransformNode) (sn : String) : Nat :=
  (l.map (fun t => shortNameOf t.path)).count sn

end NamingChecks

namespace GeometryChecks

/-- `geometry_checks._error`. -/
def _error (node message : String) : Result := ⟨"ERROR", node, message⟩

/-- `geometry_checks._warning`. -/
def _warning (node message : String) : Result := ⟨"WARNING", node, message⟩

/-- The MEL constraint command for non-manifold vertices. -/
def melNMVert : String := "polySelectConstraint -mode 3 -type 0x0001 -nonManifold 1;"

/-- The MEL constraint command for non-manifold edges. -/
def melNMEdge : String := "polySelectConstraint -mode 3 -type 0x8000 -nonManifold 1;"

/-- The MEL constraint command for lamina faces. -/
def melLamina : String := "polySelectConstraint -mode 3 -type 0x0008 -lamina 1;"

/-- The count `_count_poly_select` returns: the size of the host's constrained
selection for the given transform and MEL constraint. -/
def _count_poly_select (s : Scene) (transform melCmd : String) : Nat :=
  (s.constrainedSelect transform melCmd).length

/-- State effect of one `_count_poly_select` call: it selects the transform,
resets constraints, evaluates the MEL constraint, reselects (leaving the
constrained components selected), and in its `finally` disables the
constraint again.  So it leaves the constrained selection active and the
constraint disabled. -/
def countPolySelectSt (s : Scene) (transform melCmd : String) (st : SessionState) :
    Nat × SessionState :=
  (_count_poly_select s transform melCmd, ⟨s.constrainedSelect transform melCmd, none⟩)

/-- The token list of the single `polyInfo -faceToVertex` line for face `i`
with vertex ids `face`, after Python `str.split()`: the literal `FACE`, the
face index with a trailing colon, then the vertex ids. -/
def polyInfoTokens (i : Nat) (face : List Nat) : List String :=
  "FACE" :: (natStr i ++ ":") :: face.map natStr

/-- The vertex-count extraction of `_count_ngons` from a token list: count the
tokens after a standalone `":"` token if there is one, else drop the first two
tokens (`FACE` and `0:`). -/
def vcountOf (parts : List String) : Nat :=
  if ":" ∈ parts then parts.length - (parts.indexOf ":" + 1)
  else parts.length - 2

/-- `geometry_checks._count_ngons`: iterate the faces (via `polyEvaluate` and
per-face `polyInfo`) and count those whose parsed vertex count exceeds
`max_verts`. -/
def _count_ngons (faces : List (List Nat)) (max_verts : Nat) : Nat :=
  (faces.enum.filter (fun p => decide (max_verts < vcountOf (polyInfoTokens p.1 p.2)))).length

/-- The vertex-id tokens of a `polyInfo` line, as `_count_zero_area_faces`
extracts them. -/
def vidsOf (parts : List String) : List String :=
  if ":" ∈ parts then parts.drop (parts.indexOf ":" + 1)
  else parts.drop 2

/-- `geometry_checks._count_zero_area_faces`: count faces whose vertex-id
listing contains a repetition. -/
def _count_zero_area_faces (faces : List (List Nat)) : Nat :=
  (faces.enum.filter (fun p =>
    decide ((vidsOf (polyInfoTokens p.1 p.2)).length ≠
      (vidsOf (polyInfoTokens p.1 p.2)).dedup.length))).length

/-- The n-gon rule of one loop iteration of `run_geometry_checks`. -/
def ngonPart (m : Nat) (tpath : String) (sh : ShapeNode) : List Result :=
  if 0 < _count_ngons sh.faces m then
    [_warning tpath ("N-gons detected (> " ++ natStr m ++ " verts): " ++ natStr (_count_ngons sh.faces m))]
  else []

/-- The results one (transform, mesh shape) pair contributes to
`run_geometry_checks`: nothing for an intermediate shape, else the
non-manifold, lamina, n-gon and zero-area rules in order. -/
def geoShapeResults (s : Scene) (m : Nat) (pr : String × ShapeNode) : List Result :=
  if pr.2.intermediateObject then []
  else
    (if 0 < _count_poly_select s pr.1 melNMVert ∨ 0 < _count_poly_select s pr.1 melNMEdge then
      [_error pr.1 ("Non-manifold geometry detected (verts: " ++ natStr (_count_poly_select s pr.1 melNMVert)
        ++ ", edges: " ++ natStr (_count_poly_select s pr.1 melNMEdge) ++ ")")] else [])
    ++ (if 0 < _count_poly_select s pr.1 melLamina then
      [_error pr.1 ("Lamina faces detected: " ++ natStr (_count_poly_select s pr.1 melLamina))] else [])
    ++ ngonPart m pr.1 pr.2
    ++ (if 0 < _count_zero_area_faces pr.2.faces then
      [_warning pr.1 ("Possible zero-area faces: " ++ natStr (_count_zero_area_faces pr.2.faces))] else [])

/-- Session state after one non-intermediate iteration: the three
`_count_poly_select` calls run in order (`_count_ngons` and
`_count_zero_area_faces` only query `polyInfo` and do not select). -/
def geoShapeSessionAfter (s : Scene) (tpath : String) (st : SessionState) : SessionState :=
  (countPolySelectSt s tpath melLamina
    ((countPolySelectSt s tpath melNMEdge
      ((countPolySelectSt s tpath melNMVert st).2)).2)).2

/-- One iteration of the `run_geometry_checks` loop, threading results and
session state. -/
def geoShapeStep (s : Scene) (m : Nat) (acc : List Result × SessionState)
    (pr : String × ShapeNode) : List Result × SessionState :=
  if pr.2.intermediateObject then acc
  else (acc.1 ++ geoShapeResults s m pr, geoShapeSessionAfter s pr.1 acc.2)

/-- `geometry_checks.run_geometry_checks` with its session-state effect: an
empty mesh listing returns early (state untouched); otherwise after the loop
the function disables the selection constraints and clears the selection. -/
def run_geometry_checksSt (s : Scene) (m : Nat) (st : SessionState) :
    List Result × SessionState :=
  if (meshShapePairs s).isEmpty then ([], st)
  else (((meshShapePairs s).foldl (geoShapeStep s m) ([], st)).1, ⟨[], none⟩)

/-- The result list of `run_geometry_checks` (it does not depend on the
incoming session state). -/
def run_geometry_checks (s : Scene) (m : Nat) : List Result :=
  (meshShapePairs s).flatMap (geoShapeResults s m)

end GeometryChecks

namespace TextureChecks

/-- `texture_checks._error`. -/
def _error (node message : String) : Result := ⟨"ERROR", node, message⟩

/-- `texture_checks._warning`. -/
def _warning (node message : String) : Result := ⟨"WARNING", node, message⟩

/-- `texture_checks._info`. -/
def _info (node message : String) : Result := ⟨"INFO", node, message⟩

/-- The branches of the file-node loop body past the empty-path check, with
the original path and its slash-normalised form as arguments: the `<UDIM>`
branch, the `_UDIM_PATTERN.search` branch (the pattern matches `<UDIM>` or
`1001`; the code rechecks `1001` and re-tests existence inside it), and the
exact-existence check. -/
def fileNodeNormResults (disk : List String) (name path nrm : String) : List Result :=
  if pyContains nrm "<UDIM>" then
    (if pyReplace nrm "<UDIM>" "1001" ∈ disk then []
     else [_warning name ("UDIM texture missing (checked 1001): " ++ path)])
  else if pyContains nrm "<UDIM>" || pyContains nrm "1001" then
    (if nrm ∈ disk then []
     else if pyContains nrm "1001" && !(decide (nrm ∈ disk)) then
       [_warning name ("Possible UDIM texture missing (1001 not found): " ++ path)]
     else [])
  else if nrm ∈ disk then []
  else [_error name ("Missing texture file: " ++ path)]

/-- The file-node loop body of `run_texture_checks`: skip nodes without the
attribute, report empty or whitespace-only paths, else normalise backslashes
and continue with `fileNodeNormResults`. -/
def fileNodeResults (disk : List String) (fn : FileNode) : List Result :=
  if !fn.hasFileTextureName then []
  else if isBlank (fn.fileTextureName.getD "") then [_error fn.name "Texture path is empty"]
  else fileNodeNormResults disk fn.name (fn.fileTextureName.getD "")
    (pyReplace (fn.fileTextureName.getD "") "\\" "/")

/-- The mesh-material loop of `run_texture_checks`: non-intermediate meshes
with no `shadingEngine` connection get a WARNING, those connected only to
`initialShadingGroup` an INFO. -/
def meshMaterialResults (s : Scene) : List Result :=
  (meshShapePairs s).flatMap (fun pr =>
    if pr.2.intermediateObject then []
    else if pr.2.shadingEngines.isEmpty then
      [_warning pr.1 "Mesh has no shadingEngine connections (no material assignment)"]
    else if pr.2.shadingEngines.all (fun sg => sg == "initialShadingGroup") then
      [_info pr.1 "Mesh appears to be using default material (initialShadingGroup)"]
    else [])

/-- `texture_checks.run_texture_checks`. -/
def run_texture_checks (s : Scene) : List Result :=
  s.fileNodes.flatMap (fileNodeResults s.diskPaths) ++ meshMaterialResults s

/-- State-passing view of `run_texture_checks`: it only queries the scene and
the filesystem, so the session state passes through. -/
def run_texture_checksSt (s : Scene) (st : SessionState) : List Result × SessionState :=
  (run_texture_checks s, st)

end TextureChecks

namespace TransformChecks

/-- `transform_checks._error` (defined in the source, unused by it). -/
def _error (node message : String) : Result := ⟨"ERROR", node, message⟩

/-- `transform_checks._warning`. -/
def _warning (node message : String) : Result := ⟨"WARNING", node, message⟩

/-- `transform_checks._info`. -/
def _info (node message : String) : Result := ⟨"INFO", node, message⟩

/-- `transform_checks._abs_any_gt`. -/
def _abs_any_gt (v : Rat × Rat × Rat) (tol : Rat) : Bool :=
  ratLtB tol (ratAbs v.1) || ratLtB tol (ratAbs v.2.1) || ratLtB tol (ratAbs v.2.2)

/-- `transform_checks._bbox_center_world`: midpoint of the world bounding box
corners (`none` when the host query raises). -/
def _bbox_center_world (t : TransformNode) : Option (Rat × Rat × Rat) :=
  t.bbox.map (fun bb =>
    (ratHalf (ratAdd bb.1.1 bb.2.1), ratHalf (ratAdd bb.1.2.1 bb.2.2.1),
     ratHalf (ratAdd bb.1.2.2 bb.2.2.2)))

/-- Squared distance between two points.  The source compares
`sqrt(distSq) > pivot_tolerance`; with the nonnegative tolerance this is
equivalent to `distSq > tolerance^2`, which is how the comparison is phrased
here (square roots of rationals are not exact). -/
def _distance_sq (a b : Rat × Rat × Rat) : Rat :=
  ratAdd (ratAdd (ratMul (ratSub a.1 b.1) (ratSub a.1 b.1))
    (ratMul (ratSub a.2.1 b.2.1) (ratSub a.2.1 b.2.1)))
    (ratMul (ratSub a.2.2 b.2.2) (ratSub a.2.2 b.2.2))

/-- The pivot-versus-bbox-center rule of one loop iteration. -/
def pivotPart (pivot_tolerance : Rat) (t : TransformNode) : List Result :=
  match _bbox_center_world t, t.rotatePivotWorld with
  | some c, some p =>
    if ratLtB (ratMul pivot_tolerance pivot_tolerance) (_distance_sq c p) then
      [_info t.path ("Pivot far from bbox center (dist sq " ++ fmtRat (_distance_sq c p)
        ++ "). Pivot: " ++ fmtTriple p)]
    else []
  | _, _ => []

/-- One loop iteration of `run_transform_checks`: translate, rotate and scale
tolerance rules, then the pivot rule. -/
def perNode (tt rt sc pt : Rat) (t : TransformNode) : List Result :=
  (if _abs_any_gt t.translate tt then
    [_warning t.path ("Translate not zero: " ++ fmtTriple t.translate)] else [])
  ++ (if _abs_any_gt t.rotate rt then
    [_warning t.path ("Rotate not zero: " ++ fmtTriple t.rotate)] else [])
  ++ (if _abs_any_gt (ratSub t.scale.1 1, ratSub t.scale.2.1 1, ratSub t.scale.2.2 1) sc then
    [_warning t.path ("Scale not one: " ++ fmtTriple t.scale)] else [])
  ++ pivotPart pt t

/-- The transforms that directly parent a mesh shape. -/
def meshTransformNodes (s : Scene) : List TransformNode :=
  s.transforms.filter (fun t => t.shapes.any (fun sh => sh.nodeType == "mesh"))

/-- `transform_checks._list_mesh_transforms_long`: the sorted set of long
paths of transforms parenting mesh shapes. -/
def _list_mesh_transforms_long (s : Scene) : List String :=
  sortStrings ((meshTransformNodes s).map (fun t => t.path)).dedup

/-- Resolution of a long path back to its transform node (the source reads
the node's attributes through `cmds.getAttr` on the path). -/
def findTransform (s : Scene) (p : String) : Option TransformNode :=
  s.transforms.find? (fun t => t.path == p)

/-- `transform_checks.run_transform_checks`. -/
def run_transform_checks (tt rt sc pt : Rat) (s : Scene) : List Result :=
  (_list_mesh_transforms_long s).flatMap (fun p =>
    match findTransform s p with
    | some t => perNode tt rt sc pt t
    | none => [])

/-- `run_transform_checks` at its default tolerances (0.001, 0.01, 0.001, 0.01). -/
def run_transform_checksD (s : Scene) : List Result :=
  run_transform_checks (mkRat 1 1000) (mkRat 1 100) (mkRat 1 1000) (mkRat 1 100) s

/-- State-passing view of `run_transform_checks` at default tolerances: it
only queries the scene, so the session state passes through. -/
def run_transform_checksSt (s : Scene) (st : SessionState) : List Result × SessionState :=
  (run_transform_checksD s, st)

end TransformChecks

namespace Reporting

/-- Python `r.get("level", "INFO")` on a result dict. -/
def levelOf (d : Dict) : String := (List.lookup "level" d).getD "INFO"

/-- One step of the counts loop of `build_report`: increment the entry for
`k`, first initialising it to 0 (so appending `(k, 1)` at the end, in dict
insertion order) when absent. -/
def bump : List (String × Nat) → String → List (String × Nat)
  | [], k => [(k, 1)]
  | (k', v) :: rest, k =>
    if k' == k then (k', v + 1) :: rest else (k', v) :: bump rest k

/-- The `counts` dict of `build_report`: seeded with ERROR/WARNING/INFO at 0
and bumped at each result's level. -/
def countsOf (rs : List Dict) : List (String × Nat) :=
  rs.foldl (fun c d => bump c (levelOf d)) [("ERROR", 0), ("WARNING", 0), ("INFO", 0)]

/-- How many results of a list carry the given level (a missing `level` key
counting as INFO). -/
def countLevel (rs : List Dict) (key : String) : Nat :=
  rs.countP (fun d => levelOf d == key)

/-- The `meta` block of a report. -/
structure ReportMeta where
  tool : String
  scene_name : String
  scene_path : String
  maya_version : String
  user : String
  machine : String
  timestamp_local : String
deriving DecidableEq

/-- The `summary` block of a report. -/
structure ReportSummary where
  total : Nat
  counts : List (String × Nat)
deriving DecidableEq

/-- The report payload `build_report` returns. -/
structure Report where
  meta : ReportMeta
  summary : ReportSummary
  results : List Dict
deriving DecidableEq

/-- `reporting.build_report`: `none` models being called with `None`
(everywhere the source reads `results or []`). -/
def build_report (s : Scene) (results : Option (List Dict)) : Report :=
  { meta :=
      { tool := "maya-asset-validator"
        scene_name := if s.scenePath == "" then "untitled" else basenameOf s.scenePath
        scene_path := s.scenePath
        maya_version := s.mayaVersion
        user := s.userName
        machine := s.machineName
        timestamp_local := s.timestampLocal }
    summary := { total := (results.getD []).length, counts := countsOf (results.getD []) }
    results := results.getD [] }

end Reporting

/-- The undo-chunk bracketing calls `run_auto_fix` makes via `cmds.undoInfo`. -/
inductive ChunkEvent where
  | openChunk : ChunkEvent
  | closeChunk : ChunkEvent
deriving DecidableEq

namespace AutoFix

/-- `auto_fix._info`. -/
def _info (node message : String) : Result := ⟨"INFO", node, message⟩

/-- `auto_fix._warning`. -/
def _warning (node message : String) : Result := ⟨"WARNING", node, message⟩

/-- `auto_fix._list_mesh_transforms_long`: sorted set of long paths of
transforms parenting a non-intermediate mesh shape. -/
def _list_mesh_transforms_long (s : Scene) : List String :=
  sortStrings ((s.transforms.filter (fun t =>
    t.shapes.any (fun sh => sh.nodeType == "mesh" && !sh.intermediateObject))).map
      (fun t => t.path)).dedup

/-- `cmds.objExists` on the modelled scene's node paths and names. -/
def objExists (s : Scene) (p : String) : Bool :=
  s.transforms.any (fun t => t.path == p || t.shapes.any (fun sh => sh.path == p))
    || s.fileNodes.any (fun fn => fn.name == p)

/-- One iteration of a per-node fix loop of `run_auto_fix` (freeze or center):
skip missing nodes, count a success, and turn a host failure (`ok` false,
modelling the `except` branch) into a WARNING action. -/
def fixStep (s : Scene) (ok : String → Bool) (failMsg : String)
    (acc : List Result × Nat) (p : String) : List Result × Nat :=
  if !objExists s p then acc
  else if ok p then (acc.1, acc.2 + 1)
  else (acc.1 ++ [_warning p failMsg], acc.2)

/-- The freeze-transforms block of `run_auto_fix`. -/
def freezeActions (s : Scene) (xs : List String) : List Result :=
  (xs.foldl (fixStep s s.freezeOk "Failed to freeze transforms") ([], 0)).1
    ++ [_info "Scene" ("Freeze transforms attempted on "
        ++ natStr (xs.foldl (fixStep s s.freezeOk "Failed to freeze transforms") ([], 0)).2
        ++ " mesh transforms")]

/-- The center-pivots block of `run_auto_fix`. -/
def centerActions (s : Scene) (xs : List String) : List Result :=
  (xs.foldl (fixStep s s.centerOk "Failed to center pivot") ([], 0)).1
    ++ [_info "Scene" ("Center pivots attempted on "
        ++ natStr (xs.foldl (fixStep s s.centerOk "Failed to center pivot") ([], 0)).2
        ++ " mesh transforms")]

/-- The delete-unused block of `run_auto_fix`: the HyperShade MEL command,
its `MLdeleteUnused` fallback, and the WARNING when both raise. -/
def deleteActions (s : Scene) : List Result :=
  if s.deleteUnusedPrimaryOk then [_info "Scene" "Delete unused nodes executed"]
  else if s.deleteUnusedFallbackOk then [_info "Scene" "Delete unused nodes executed (fallback)"]
  else [_warning "Scene" "Failed to delete unused nodes (HyperShade may not be available)"]

/-- `auto_fix.run_auto_fix`: opens an undo chunk, runs the requested blocks
(per-node failures recorded as WARNING actions, never propagated), and closes
the chunk in its `finally`.  The second component is the undo-chunk event
trace. -/
def run_auto_fix (s : Scene) (freeze_transforms center_pivots delete_unused : Bool) :
    List Result × List ChunkEvent :=
  ((if freeze_transforms then freezeActions s (_list_mesh_transforms_long s) else [])
    ++ (if center_pivots then centerActions s (_list_mesh_transforms_long s) else [])
    ++ (if delete_unused then deleteActions s else []),
   [ChunkEvent.openChunk] ++ [ChunkEvent.closeChunk])

end AutoFix

namespace ValidatorUI

/-- The dialog state of `AssetValidatorUI`: the stored result lists, the
rendered list-widget rows, the summary and status labels, and the filter
widgets' current values. -/
structure UIState where
  last_results : List Result
  filtered_results : List Result
  results_list : List String
  summary_label : String
  status_label : String
  severity_choice : String
  search_text : String
deriving DecidableEq

/-- The row text `apply_filters` builds for one result. -/
def displayOf (r : Result) : String :=
  "[" ++ r.level ++ "] " ++ r.node ++ " — " ++ r.message

/-- The severity/search predicate of `apply_filters`: keep a result when the
severity filter is `All` or matches, and the lowercased query (when nonempty)
occurs in the lowercased `"level node message"` haystack. -/
def filterPred (severity query : String) (r : Result) : Bool :=
  (severity == "All" || r.level == severity)
    && (query == ""
        || pyContains (lowerStr (r.level ++ " " ++ r.node ++ " " ++ r.message)) query)

/-- The summary text `apply_filters` sets (only ERROR/WARNING/INFO are
counted here, unlike `build_report`). -/
def summaryText (rs : List Result) : String :=
  "ERROR: " ++ natStr (rs.countP (fun r => r.level == "ERROR"))
    ++ " | WARNING: " ++ natStr (rs.countP (fun r => r.level == "WARNING"))
    ++ " | INFO: " ++ natStr (rs.countP (fun r => r.level == "INFO"))
    ++ " | Total: " ++ natStr rs.length

/-- `AssetValidatorUI.apply_filters`: recompute the summary from
`last_results`, filter them, store `filtered_results`, and rebuild the list
widget (an INFO row when nothing matches). -/
def apply_filters (st : UIState) : UIState :=
  { st with
    summary_label := summaryText st.last_results
    filtered_results := st.last_results.filter
      (filterPred st.severity_choice (lowerStr (pyStrip st.search_text)))
    results_list :=
      if (st.last_results.filter
            (filterPred st.severity_choice (lowerStr (pyStrip st.search_text)))).isEmpty then
        ["[INFO] No results match current filters"]
      else
        (st.last_results.filter
          (filterPred st.severity_choice (lowerStr (pyStrip st.search_text)))).map displayOf }

/-- `AssetValidatorUI.run_validation`: clear the list widget, run the four
checks in order into one flat list, store it in `last_results` (the source
assigns it twice), call `apply_filters`, and set the status label. -/
def run_validation (scene : Scene) (st : UIState) : UIState :=
  { apply_filters
      { st with
        results_list := []
        status_label := "Running validation..."
        last_results :=
          NamingChecks.run_naming_checks scene
            ++ TransformChecks.run_transform_checksD scene
            ++ GeometryChecks.run_geometry_checks scene 4
            ++ TextureChecks.run_texture_checks scene } with
    status_label := "Validation complete" }

/-- The first `clear_results` definition in the class body (lines 194-200):
clears the widget, both stored lists, the summary and the status. -/
def clear_results_first (st : UIState) : UIState :=
  { st with
    results_list := []
    last_results := []
    filtered_results := []
    summary_label := "ERROR: 0 | WARNING: 0 | INFO: 0 | Total: 0"
    status_label := "Results cleared" }

/-- The second `clear_results` definition in the class body (lines 299-301),
which Python's sequential class-body execution makes the effective method:
it clears only the list widget and the status label. -/
def clear_results (st : UIState) : UIState :=
  { st with
    results_list := []
    status_label := "Results cleared" }

/-- The Clear Results button action: `connect_signals` binds the button to
`self.clear_results`, which resolves to the later definition. -/
def clear_button_action (st : UIState) : UIState := clear_results st

/-- The report `export_report` would write: `None` when `last_results` is
empty (the source shows the "No Results" box and returns), else the payload
`build_report(self.last_results)` produces. -/
def export_selected_report (scene : Scene) (st : UIState) : Option Reporting.Report :=
  if st.last_results.isEmpty then none
  else some (Reporting.build_report scene (some (st.last_results.map Result.toDict)))

end ValidatorUI

/-- The four check functions `run_validation` invokes. -/
inductive CheckKind where
  | naming : CheckKind
  | transforms : CheckKind
  | geometry : CheckKind
  | texture : CheckKind
deriving DecidableEq

/-- A check run against the scene and the current session state, returning
its result list and the session state it leaves behind (geometry at its
default `max_ngon_verts`, transforms at their default tolerances, as
`run_validation` calls them). -/
def runCheckSt : CheckKind → Scene → SessionState → List Result × SessionState
  | CheckKind.naming, s, st => NamingChecks.run_naming_checksSt s st
  | CheckKind.transforms, s, st => TransformChecks.run_transform_checksSt s st
  | CheckKind.geometry, s, st => GeometryChecks.run_geometry_checksSt s 4 st
  | CheckKind.texture, s, st => TextureChecks.run_texture_checksSt s st

/-- The result list of a check as a function of the scene alone. -/
def pureResults : CheckKind → Scene → List Result
  | CheckKind.naming, s => NamingChecks.run_naming_checks s
  | CheckKind.transforms, s => TransformChecks.run_transform_checksD s
  | CheckKind.geometry, s => GeometryChecks.run_geometry_checks s 4
  | CheckKind.texture, s => TextureChecks.run_texture_checks s

/-! Helper lemmas shared by the claim theorems. -/

/-- Membership in a conditional singleton pins the element down. -/
theorem mem_ite_sing {α : Type} {c : Prop} [Decidable c] {x r : α}
    (h : r ∈ (if c then [x] else [])) : r = x := by
  by_cases hc : c
  · rw [if_pos hc] at h; simpa using h
  · rw [if_neg hc] at h; simp at h

/-- `digitChar` only produces decimal digit characters, never a colon. -/
theorem digitChar_ne_colon (k : Nat) : digitChar k ≠ ':' := by
  unfold digitChar
  split_ifs <;> decide

/-- Every character `natStrAux` produces is a digit or comes from the
accumulator. -/
theorem natStrAux_mem : ∀ (fuel n : Nat) (acc : List Char) (c : Char),
    c ∈ natStrAux n fuel acc → c ∈ acc ∨ ∃ k, c = digitChar k := by
  intro fuel
  induction fuel with
  | zero => intro n acc c h; exact Or.inl h
  | succ f ih =>
    intro n acc c h
    rw [natStrAux] at h
    by_cases hn : n < 10
    · rw [if_pos hn] at h
      rcases List.mem_cons.mp h with h1 | h1
      · exact Or.inr ⟨n, h1⟩
      · exact Or.inl h1
    · rw [if_neg hn] at h
      rcases ih _ _ _ h with h1 | h1
      · rcases List.mem_cons.mp h1 with h2 | h2
        · exact Or.inr ⟨n % 10, h2⟩
        · exact Or.inl h2
      · exact Or.inr h1

/-- With nonzero fuel `natStrAux` produces a nonempty list. -/
theorem natStrAux_ne_nil : ∀ (fuel n : Nat) (acc : List Char), fuel ≠ 0 →
    natStrAux n fuel acc ≠ [] := by
  intro fuel
  induction fuel with
  | zero => intro n acc h; exact absurd rfl h
  | succ f ih =>
    intro n acc _
    rw [natStrAux]
    by_cases hn : n < 10
    · rw [if_pos hn]; simp
    · rw [if_neg hn]
      cases f with
      | zero => rw [natStrAux]; simp
      | succ f2 => exact ih _ _ (by simp)

/-- A rendered natural number is never the empty string. -/
theorem natStr_ne_empty (n : Nat) : natStr n ≠ "" := by
  intro h
  exact natStrAux_ne_nil (n + 1) n [] (by simp) (congrArg String.data h)

/-- A rendered natural number is never the string `":"`. -/
theorem natStr_ne_colon (n : Nat) : natStr n ≠ ":" := by
  intro h
  have hd : natStrAux n (n + 1) [] = [':'] := congrArg String.data h
  have hm : ':' ∈ natStrAux n (n + 1) [] := by rw [hd]; simp
  rcases natStrAux_mem (n + 1) n [] ':' hm with h1 | ⟨k, h1⟩
  · simp at h1
  · exact digitChar_ne_colon k h1.symm

/-- The face-index token `"i:"` is never the bare colon token. -/
theorem natStr_colon_ne_colon (n : Nat) : natStr n ++ ":" ≠ ":" := by
  intro h
  have hd : (natStr n).data ++ [':'] = [':'] := by
    have := congrArg String.data h
    rwa [String.data_append] at this
  have hlen := congrArg List.length hd
  simp at hlen
  exact natStrAux_ne_nil (n + 1) n [] (by simp) (List.length_eq_zero.mp hlen)

/-- The `polyInfo` token list never contains a standalone colon token, so
`_count_ngons` always takes its fallback `len(parts) - 2` branch. -/
theorem colon_not_mem_polyInfoTokens (i : Nat) (face : List Nat) :
    ":" ∉ GeometryChecks.polyInfoTokens i face := by
  intro h
  rcases List.mem_cons.mp h with h1 | h1
  · exact absurd h1.symm (by decide)
  rcases List.mem_cons.mp h1 with h2 | h2
  · exact natStr_colon_ne_colon i h2.symm
  · rcases List.mem_map.mp h2 with ⟨v, _, hv⟩
    exact natStr_ne_colon v hv

/-- The vertex count `_count_ngons` parses from the `polyInfo` line of a face
is exactly the face's number of vertices. -/
theorem vcountOf_polyInfoTokens (i : Nat) (face : List Nat) :
    GeometryChecks.vcountOf (GeometryChecks.polyInfoTokens i face) = face.length := by
  rw [GeometryChecks.vcountOf, if_neg (colon_not_mem_polyInfoTokens i face)]
  simp [GeometryChecks.polyInfoTokens]

/-- Filtering an enumerated list on a property of the elements alone counts
the same items as filtering the list itself. -/
theorem filter_enumFrom_snd {α : Type} (q : α → Bool) : ∀ (l : List α) (k : Nat),
    ((List.enumFrom k l).filter (fun p => q p.2)).length = (l.filter q).length := by
  intro l
  induction l with
  | nil => intro k; rfl
  | cons a t ih =>
    intro k
    simp only [List.enumFrom, List.filter_cons]
    by_cases h : q a = true
    · simp [h, ih]
    · simp [h, ih]

/-- `_count_ngons` counts exactly the faces with more than `max_verts`
vertices. -/
theorem count_ngons_eq (faces : List (List Nat)) (m : Nat) :
    GeometryChecks._count_ngons faces m = (faces.filter (fun f => decide (m < f.length))).length := by
  rw [GeometryChecks._count_ngons]
  have hfun : (fun (p : Nat × List Nat) =>
      decide (m < GeometryChecks.vcountOf (GeometryChecks.polyInfoTokens p.1 p.2))) =
      (fun (p : Nat × List Nat) => decide (m < p.2.length)) := by
    funext p
    rw [vcountOf_polyInfoTokens]
  rw [hfun]
  exact filter_enumFrom_snd (fun f => decide (m < f.length)) faces 0

/-- The contribution of one listing element is an infix of the flat map. -/
theorem flatMap_infix_of_mem {α β : Type} (l : List α) (g : α → List β) (a : α) (ha : a ∈ l) :
    g a <:+: l.flatMap g := by
  obtain ⟨s, t, rfl⟩ := List.append_of_mem ha
  refine ⟨s.flatMap g, t.flatMap g, ?_⟩
  simp

/-! Concrete scenes used by witnesses and counterexamples. -/

/-- A five-vertex single-face mesh shape under `|pCube1`. -/
def shCx : ShapeNode := ⟨"|pCube1|pCubeShape1", "mesh", false, [[0, 1, 2, 3, 4]], []⟩

/-- The transform `|pCube1` parenting `shCx`. -/
def trCx : TransformNode :=
  ⟨"|pCube1", [shCx], (0, 0, 0), (0, 0, 0), (1, 1, 1), none, none⟩

/-- A small concrete scene: one mesh transform and one file node whose
texture path does not exist on disk, with all auto-fix host operations
failing per node. -/
def sceneCx : Scene :=
  { transforms := [trCx]
    fileNodes := [⟨"file1", true, some "tex.png"⟩]
    diskPaths := []
    constrainedSelect := fun _ _ => []
    freezeOk := fun _ => false
    centerOk := fun _ => false
    deleteUnusedPrimaryOk := true
    deleteUnusedFallbackOk := false
    scenePath := ""
    mayaVersion := "2025"
    userName := "u"
    machineName := "m"
    timestampLocal := "t" }

/-- A scene whose only file node carries a whitespace-only texture path. -/
def sceneC6 : Scene :=
  { transforms := []
    fileNodes := [⟨"file1", true, some " "⟩]
    diskPaths := []
    constrainedSelect := fun _ _ => []
    freezeOk := fun _ => true
    centerOk := fun _ => true
    deleteUnusedPrimaryOk := true
    deleteUnusedFallbackOk := true
    scenePath := ""
    mayaVersion := "2025"
    userName := "u"
    machineName := "m"
    timestampLocal := "t" }

/-- A bare transform used to build naming scenes. -/
def mkT (p : String) : TransformNode := ⟨p, [], (0, 0, 0), (0, 0, 0), (1, 1, 1), none, none⟩

/-- A scene with three transforms sharing the short name `thing`. -/
def sceneC4 : Scene :=
  { transforms := [mkT "|a|thing", mkT "|b|thing", mkT "|c|thing"]
    fileNodes := []
    diskPaths := []
    constrainedSelect := fun _ _ => []
    freezeOk := fun _ => true
    centerOk := fun _ => true
    deleteUnusedPrimaryOk := true
    deleteUnusedFallbackOk := true
    scenePath := ""
    mayaVersion := "2025"
    userName := "u"
    machineName := "m"
    timestampLocal := "t" }

/-- C5: for every mesh shape and every `max_ngon_verts`, the n-gon rule fires
at most once per shape, exactly when the shape has a face with strictly more
than `max_ngon_verts` vertices as parsed from the `polyInfo` face lines, the
count in the message is the number of such faces, and for a non-intermediate
listed mesh the rule's output appears contiguously inside
`run_geometry_checks`. -/
theorem claim_C5 (s : Scene) (m : Nat) (tpath : String) (sh : ShapeNode) :
    GeometryChecks._count_ngons sh.faces m =
      (sh.faces.filter (fun f => decide (m < f.length))).length
    ∧ GeometryChecks.ngonPart m tpath sh =
        (if 0 < (sh.faces.filter (fun f => decide (m < f.length))).length then
          [GeometryChecks._warning tpath ("N-gons detected (> " ++ natStr m ++ " verts): "
            ++ natStr (sh.faces.filter (fun f => decide (m < f.length))).length)]
         else [])
    ∧ (GeometryChecks.ngonPart m tpath sh).length ≤ 1
    ∧ (sh.intermediateObject = false → (tpath, sh) ∈ meshShapePairs s →
        GeometryChecks.ngonPart m tpath sh <:+: GeometryChecks.run_geometry_checks s m) := by
  refine ⟨count_ngons_eq sh.faces m, ?_, ?_, ?_⟩
  · rw [GeometryChecks.ngonPart, count_ngons_eq]
  · rw [GeometryChecks.ngonPart]
    split <;> simp
  · intro h1 h2
    have hinner : GeometryChecks.ngonPart m tpath sh <:+:
        GeometryChecks.geoShapeResults s m (tpath, sh) := by
      rw [GeometryChecks.geoShapeResults]
      simp only [h1, Bool.false_eq_true, if_false]
      exact List.infix_append _ _ _
    rw [GeometryChecks.run_geometry_checks]
    exact hinner.trans (flatMap_infix_of_mem (meshShapePairs s) (GeometryChecks.geoShapeResults s m)
      (tpath, sh) h2)

/-- Witness for C5 at a concrete five-vertex face mesh. -/
theorem claim_C5_witness :
    (shCx.intermediateObject = false ∧ ("|pCube1", shCx) ∈ meshShapePairs sceneCx)
    ∧ GeometryChecks.ngonPart 4 "|pCube1" shCx <:+:
        GeometryChecks.run_geometry_checks sceneCx 4 :=
  ⟨⟨by decide, by decide⟩,
    (claim_C5 sceneCx 4 "|pCube1" shCx).2.2.2 (by decide) (by decide)⟩

/-- Filtering for duplicate-name errors distributes over concatenation. -/
theorem dupFilter_append (a b : List Result) :
    NamingChecks.dupFilter (a ++ b) = NamingChecks.dupFilter a ++ NamingChecks.dupFilter b := by
  simp [NamingChecks.dupFilter, List.filter_append]

/-- None of the non-duplicate naming rules ever emits the duplicate-name
message. -/
theorem dupFilter_otherRules (t : TransformNode) :
    NamingChecks.dupFilter (NamingChecks.otherRules t) = [] := by
  rw [NamingChecks.dupFilter, List.filter_eq_nil]
  intro r hr
  simp only [NamingChecks.otherRules, List.mem_append, List.mem_flatMap] at hr
  rcases hr with (h | ⟨sh, _, h | h⟩) | h <;>
    (rw [mem_ite_sing h]
     simp [NamingChecks._error, NamingChecks._warning, NamingChecks._info])

/-- The duplicate-name errors of the naming loop match the specification
accumulator, provided `seen` and the spec's prefix list agree as sets. -/
theorem run_naming_dup_aux :
    ∀ (l : List TransformNode) (seen pre : List String),
      (∀ x, x ∈ seen ↔ x ∈ pre) →
      NamingChecks.dupFilter (NamingChecks.run_naming_checksAux l seen) =
        NamingChecks.dupSpecAux l pre := by
  intro l
  induction l with
  | nil =>
    intro seen pre _
    rfl
  | cons t rest ih =>
    intro seen pre h
    rw [NamingChecks.run_naming_checksAux, NamingChecks.dupSpecAux,
      dupFilter_append, dupFilter_append, dupFilter_otherRules]
    by_cases hd : shortNameOf t.path ∈ pre
    · have hd' : shortNameOf t.path ∈ seen := (h _).mpr hd
      rw [if_pos hd', if_pos hd, if_pos hd']
      have hrec := ih seen (shortNameOf t.path :: pre) (by
        intro x
        constructor
        · intro hx; exact List.mem_cons_of_mem _ ((h x).mp hx)
        · intro hx
          rcases List.mem_cons.mp hx with h2 | h2
          · rw [h2]; exact hd'
          · exact (h x).mpr h2)
      rw [hrec]
      simp [NamingChecks.dupFilter, NamingChecks._error]
    · have hd' : shortNameOf t.path ∉ seen := fun hx => hd ((h _).mp hx)
      rw [if_neg hd', if_neg hd, if_neg hd']
      have hrec := ih (shortNameOf t.path :: seen) (shortNameOf t.path :: pre) (by
        intro x
        simp only [List.mem_cons]
        constructor
        · rintro (h2 | h2)
          · exact Or.inl h2
          · exact Or.inr ((h x).mp h2)
        · rintro (h2 | h2)
          · exact Or.inl h2
          · exact Or.inr ((h x).mpr h2))
      rw [hrec]
      simp [NamingChecks.dupFilter]

/-- Duplicate-error count per short name in the specification accumulator:
every occurrence is flagged when the name was already seen, all but the
first otherwise. -/
theorem dupSpecAux_count :
    ∀ (l : List TransformNode) (pre : List String) (sn : String),
      ((NamingChecks.dupSpecAux l pre).filter (fun r => shortNameOf r.node == sn)).length =
        (if sn ∈ pre then NamingChecks.shortCount l sn else NamingChecks.shortCount l sn - 1) := by
  intro l
  induction l with
  | nil =>
    intro pre sn
    rw [NamingChecks.dupSpecAux]
    have h0 : NamingChecks.shortCount [] sn = 0 := rfl
    rw [h0]
    split <;> rfl
  | cons t rest ih =>
    intro pre sn
    rw [NamingChecks.dupSpecAux, List.filter_append, List.length_append,
      ih (shortNameOf t.path :: pre) sn]
    have hcount : NamingChecks.shortCount (t :: rest) sn =
        NamingChecks.shortCount rest sn + (if shortNameOf t.path = sn then 1 else 0) := by
      simp [NamingChecks.shortCount, List.count_cons]
    rw [hcount]
    by_cases hst : shortNameOf t.path = sn
    · have hflt : (List.filter (fun r => shortNameOf r.node == sn)
          [NamingChecks._error t.path "Duplicate object name"]).length = 1 := by
        simp [NamingChecks._error, hst]
      rw [if_pos hst]
      by_cases hpre : sn ∈ pre
      · have h1 : shortNameOf t.path ∈ pre := by rw [hst]; exact hpre
        rw [if_pos h1, if_pos (List.mem_cons_of_mem _ hpre), if_pos hpre, hflt]
        omega
      · have h1 : shortNameOf t.path ∉ pre := by rw [hst]; exact hpre
        have h2 : sn ∈ shortNameOf t.path :: pre := by
          rw [hst]; exact List.mem_cons_self _ _
        rw [if_neg h1, if_pos h2, if_neg hpre]
        simp only [List.filter_nil, List.length_nil]
        omega
    · have hflt : ∀ rs : List Result, rs = [NamingChecks._error t.path "Duplicate object name"] →
          (List.filter (fun r => shortNameOf r.node == sn) rs).length = 0 := by
        intro rs hrs
        rw [hrs]
        simp [NamingChecks._error, hst]
      rw [if_neg hst]
      by_cases hpre : sn ∈ pre
      · rw [if_pos (List.mem_cons_of_mem _ hpre), if_pos hpre]
        by_cases h1 : shortNameOf t.path ∈ pre
        · rw [if_pos h1, hflt _ rfl]
          omega
        · rw [if_neg h1]
          simp only [List.filter_nil, List.length_nil]
          omega
      · have h2 : sn ∉ shortNameOf t.path :: pre := by
          intro hx
          rcases List.mem_cons.mp hx with h3 | h3
          · exact hst h3.symm
          · exact hpre h3
        rw [if_neg h2, if_neg hpre]
        by_cases h1 : shortNameOf t.path ∈ pre
        · rw [if_pos h1, hflt _ rfl]
          omega
        · rw [if_neg h1]
          simp only [List.filter_nil, List.length_nil]
          omega

/-- C4: the duplicate-name ERRORs of `run_naming_checks` are exactly those of
the earlier-same-short-name specification (first occurrences never flagged,
later ones always), and for every short name occurring `n ≥ 1` times the run
emits exactly `n - 1` duplicate-name errors carrying that short name. -/
theorem claim_C4 (s : Scene) :
    NamingChecks.dupFilter (NamingChecks.run_naming_checks s) = NamingChecks.dupSpec s.transforms
    ∧ ∀ sn : String, 0 < NamingChecks.shortCount s.transforms sn →
        ((NamingChecks.dupFilter (NamingChecks.run_naming_checks s)).filter
            (fun r => shortNameOf r.node == sn)).length =
          NamingChecks.shortCount s.transforms sn - 1 := by
  have h1 : NamingChecks.dupFilter (NamingChecks.run_naming_checks s) =
      NamingChecks.dupSpec s.transforms :=
    run_naming_dup_aux s.transforms [] [] (by simp)
  refine ⟨h1, ?_⟩
  intro sn _
  rw [h1, NamingChecks.dupSpec, dupSpecAux_count s.transforms [] sn]
  rw [if_neg (by simp)]

/-- Witness for C4 on three transforms sharing the short name `thing`. -/
theorem claim_C4_witness :
    0 < NamingChecks.shortCount sceneC4.transforms "thing"
    ∧ ((NamingChecks.dupFilter (NamingChecks.run_naming_checks sceneC4)).filter
          (fun r => shortNameOf r.node == "thing")).length =
        NamingChecks.shortCount sceneC4.transforms "thing" - 1 :=
  ⟨by decide, (claim_C4 sceneC4).2 "thing" (by decide)⟩

/-- Bumping a key makes its looked-up count one larger (0 when absent). -/
theorem lookup_bump_self : ∀ (c : List (String × Nat)) (k : String),
    List.lookup k (Reporting.bump c k) = some ((List.lookup k c).getD 0 + 1) := by
  intro c
  induction c with
  | nil => intro k; simp [Reporting.bump, List.lookup]
  | cons p rest ih =>
    intro k
    obtain ⟨k', v⟩ := p
    by_cases h : k' = k
    · subst h
      simp [Reporting.bump, List.lookup]
    · have hb1 : (k' == k) = false := beq_eq_false_iff_ne.mpr h
      have hb2 : (k == k') = false := beq_eq_false_iff_ne.mpr (Ne.symm h)
      simp [Reporting.bump, List.lookup, hb1, hb2, ih]

/-- Bumping one key leaves every other key's count unchanged. -/
theorem lookup_bump_other : ∀ (c : List (String × Nat)) (k k' : String), k ≠ k' →
    List.lookup k (Reporting.bump c k') = List.lookup k c := by
  intro c
  induction c with
  | nil =>
    intro k k' h
    simp [Reporting.bump, List.lookup, beq_eq_false_iff_ne.mpr h]
  | cons p rest ih =>
    intro k k' h
    obtain ⟨k0, v⟩ := p
    by_cases h0 : k0 = k'
    · subst h0
      simp [Reporting.bump, List.lookup, beq_eq_false_iff_ne.mpr h]
    · have hb0 : (k0 == k') = false := beq_eq_false_iff_ne.mpr h0
      by_cases h1 : k = k0
      · subst h1
        simp [Reporting.bump, List.lookup, hb0]
      · simp [Reporting.bump, List.lookup, hb0, beq_eq_false_iff_ne.mpr h1, ih _ _ h]

/-- The counts fold of `build_report`: each key's final count is its seed
plus the number of results at that level, keys never seeded nor seen staying
absent. -/
theorem lookup_countsFold : ∀ (l : List Dict) (c : List (String × Nat)) (key : String),
    List.lookup key (l.foldl (fun acc d => Reporting.bump acc (Reporting.levelOf d)) c) =
      (match List.lookup key c with
       | some v => some (v + Reporting.countLevel l key)
       | none =>
         if 0 < Reporting.countLevel l key then some (Reporting.countLevel l key) else none) := by
  intro l
  induction l with
  | nil =>
    intro c key
    cases h : List.lookup key c <;> simp [Reporting.countLevel, h]
  | cons d t ih =>
    intro c key
    rw [List.foldl_cons, ih]
    have hc : Reporting.countLevel (d :: t) key =
        Reporting.countLevel t key + (if Reporting.levelOf d = key then 1 else 0) := by
      simp only [Reporting.countLevel, List.countP_cons]
      by_cases h : Reporting.levelOf d = key
      · simp [h]
      · simp [h]
    rw [hc]
    by_cases hk : Reporting.levelOf d = key
    · rw [hk, lookup_bump_self, if_pos rfl]
      cases h : List.lookup key c with
      | none =>
        simp only [h, Option.getD_none]
        have : (0:Nat) < Reporting.countLevel t key + 1 := by omega
        simp [this]
        omega
      | some v =>
        simp only [h, Option.getD_some]
        have : v + 1 + Reporting.countLevel t key = v + (Reporting.countLevel t key + 1) := by omega
        simp [this]
    · rw [lookup_bump_other c key (Reporting.levelOf d) (fun hh => hk hh.symm), if_neg hk]
      cases h : List.lookup key c <;> simp [h]

/-- C7: `build_report` sets `summary.total` to the length of the input list
(`None` counting as empty), returns the input list unchanged in `results`,
and its `summary.counts` maps ERROR, WARNING and INFO (always present) and
any other level that occurs to the number of items carrying that level, a
missing `level` key counting as INFO and unseen other levels staying absent. -/
theorem claim_C7 (s : Scene) (input : Option (List Dict)) :
    (Reporting.build_report s input).summary.total = (input.getD []).length
    ∧ (Reporting.build_report s input).results = input.getD []
    ∧ ∀ key : String,
        List.lookup key (Reporting.build_report s input).summary.counts =
          (if key ∈ (["ERROR", "WARNING", "INFO"] : List String)
              ∨ 0 < Reporting.countLevel (input.getD []) key then
            some (Reporting.countLevel (input.getD []) key)
          else none) := by
  refine ⟨rfl, rfl, ?_⟩
  intro key
  have hbase := lookup_countsFold (input.getD [])
    [("ERROR", 0), ("WARNING", 0), ("INFO", 0)] key
  show List.lookup key (Reporting.countsOf (input.getD [])) = _
  rw [Reporting.countsOf, hbase]
  by_cases h1 : key = "ERROR"
  · subst h1
    simp [List.lookup]
  · by_cases h2 : key = "WARNING"
    · subst h2
      simp [List.lookup]
    · by_cases h3 : key = "INFO"
      · subst h3
        simp [List.lookup]
      · have hnone : List.lookup key
            ([("ERROR", 0), ("WARNING", 0), ("INFO", 0)] : List (String × Nat)) = none := by
          simp [List.lookup, beq_eq_false_iff_ne.mpr h1, beq_eq_false_iff_ne.mpr h2,
            beq_eq_false_iff_ne.mpr h3]
        rw [hnone]
        have hmem : key ∉ (["ERROR", "WARNING", "INFO"] : List String) := by
          simp [h1, h2, h3]
        by_cases h4 : 0 < Reporting.countLevel (input.getD []) key
        · simp [h4, hmem]
        · simp [h4, hmem]

/-- The geometry loop only ever appends to the result accumulator. -/
theorem geoStep_fold_results (s : Scene) (m : Nat) :
    ∀ (l : List (String × ShapeNode)) (init : List Result) (st : SessionState),
      (l.foldl (GeometryChecks.geoShapeStep s m) (init, st)).1 =
        init ++ l.flatMap (GeometryChecks.geoShapeResults s m) := by
  intro l
  induction l with
  | nil => intro init st; simp
  | cons pr t ih =>
    intro init st
    rw [List.foldl_cons]
    by_cases h : pr.2.intermediateObject = true
    · have hres : GeometryChecks.geoShapeResults s m pr = [] := by
        rw [GeometryChecks.geoShapeResults, if_pos h]
      rw [show GeometryChecks.geoShapeStep s m (init, st) pr = (init, st) from by
        rw [GeometryChecks.geoShapeStep, if_pos h]]
      rw [ih]
      simp [hres]
    · rw [show GeometryChecks.geoShapeStep s m (init, st) pr =
        (init ++ GeometryChecks.geoShapeResults s m pr,
          GeometryChecks.geoShapeSessionAfter s pr.1 st) from by
        rw [GeometryChecks.geoShapeStep, if_neg h]]
      rw [ih]
      simp

/-- The result list of `run_geometry_checks` does not depend on the incoming
session state. -/
theorem run_geometry_checksSt_results (s : Scene) (m : Nat) (st : SessionState) :
    (GeometryChecks.run_geometry_checksSt s m st).1 = GeometryChecks.run_geometry_checks s m := by
  rw [GeometryChecks.run_geometry_checksSt, GeometryChecks.run_geometry_checks]
  by_cases h : (meshShapePairs s).isEmpty = true
  · rw [if_pos h]
    rw [List.isEmpty_iff.mp h]
    rfl
  · rw [if_neg h]
    rw [geoStep_fold_results s m (meshShapePairs s) [] st]
    rfl

/-- Every check's result list is a function of the scene alone. -/
theorem runCheckSt_results (k : CheckKind) (s : Scene) (st : SessionState) :
    (runCheckSt k s st).1 = pureResults k s := by
  cases k
  · rfl
  · rfl
  · exact run_geometry_checksSt_results s 4 st
  · rfl

/-- C3: each of the four checks returns a result list that depends only on
the (unmodified) scene: the same check run from any session state returns
the same list, running any other check first does not change it, and running
a check twice returns equal lists. -/
theorem claim_C3 (k k' : CheckKind) (s : Scene) (st st' : SessionState) :
    (runCheckSt k s st).1 = (runCheckSt k s st').1
    ∧ (runCheckSt k s ((runCheckSt k' s st).2)).1 = (runCheckSt k s st).1
    ∧ (runCheckSt k s ((runCheckSt k s st).2)).1 = (runCheckSt k s st).1 := by
  refine ⟨?_, ?_, ?_⟩ <;> rw [runCheckSt_results, runCheckSt_results]

/-- Counterexample to C2 as stated: with a mesh in the scene,
`run_geometry_checks` does not leave the active selection unchanged — it
ends by clearing it. -/
theorem claim_C2_counterexample :
    (GeometryChecks.run_geometry_checksSt sceneCx 4 ⟨["|pCube1"], none⟩).2 ≠
      (⟨["|pCube1"], none⟩ : SessionState) := by
  decide

/-- C2 amended: the naming, transform and texture checks leave the session
state (selection and poly selection constraint) unchanged, and never mutate
the scene (all four checks read the `Scene` value only); the geometry check
leaves the state unchanged when the scene has no mesh shapes, and otherwise
exits with the selection cleared and the selection constraint disabled. -/
theorem claim_C2_amended (s : Scene) (m : Nat) (st : SessionState) :
    (NamingChecks.run_naming_checksSt s st).2 = st
    ∧ (TransformChecks.run_transform_checksSt s st).2 = st
    ∧ (TextureChecks.run_texture_checksSt s st).2 = st
    ∧ (GeometryChecks.run_geometry_checksSt s m st).2 =
        (if (meshShapePairs s).isEmpty then st else ⟨[], none⟩) := by
  refine ⟨rfl, rfl, rfl, ?_⟩
  rw [GeometryChecks.run_geometry_checksSt]
  by_cases h : (meshShapePairs s).isEmpty = true
  · rw [if_pos h, if_pos h]
  · rw [if_neg h, if_neg h]

/-- C1: `run_validation` stores in `last_results` exactly the concatenation
of the four check results, in order, with nothing nested, dropped, deduplicated
or reordered. -/
theorem claim_C1 (scene : Scene) (st : ValidatorUI.UIState) :
    (ValidatorUI.run_validation scene st).last_results =
      NamingChecks.run_naming_checks scene
        ++ TransformChecks.run_transform_checksD scene
        ++ GeometryChecks.run_geometry_checks scene 4
        ++ TextureChecks.run_texture_checks scene := rfl

/-- C9: the Clear Results button invokes the later `clear_results`
definition, which clears only the list widget and the status label;
`last_results`, `filtered_results` and the summary label keep their previous
contents, so the report exported after clearing equals the one exported
before. -/
theorem claim_C9 (scene : Scene) (st : ValidatorUI.UIState) :
    ValidatorUI.clear_button_action st = ValidatorUI.clear_results st
    ∧ (ValidatorUI.clear_results st).last_results = st.last_results
    ∧ (ValidatorUI.clear_results st).filtered_results = st.filtered_results
    ∧ (ValidatorUI.clear_results st).summary_label = st.summary_label
    ∧ (ValidatorUI.clear_results st).results_list = []
    ∧ (ValidatorUI.clear_results st).status_label = "Results cleared"
    ∧ ValidatorUI.export_selected_report scene (ValidatorUI.clear_results st) =
        ValidatorUI.export_selected_report scene st :=
  ⟨rfl, rfl, rfl, rfl, rfl, rfl, rfl⟩

/-- A per-node fix loop only appends to its action accumulator. -/
theorem fixStep_fold_mono (s : Scene) (ok : String → Bool) (msg : String) :
    ∀ (xs : List String) (acc : List Result × Nat) (r : Result),
      r ∈ acc.1 → r ∈ (xs.foldl (AutoFix.fixStep s ok msg) acc).1 := by
  intro xs
  induction xs with
  | nil => intro acc r h; exact h
  | cons x t ih =>
    intro acc r h
    rw [List.foldl_cons]
    refine ih _ r ?_
    rw [AutoFix.fixStep]
    split
    · exact h
    · split
      · exact h
      · exact List.mem_append_left _ h

/-- A failing per-node fix leaves its WARNING in the fold's action list. -/
theorem fixStep_fold_mem (s : Scene) (ok : String → Bool) (msg : String) :
    ∀ (xs : List String) (acc : List Result × Nat) (p : String),
      p ∈ xs → AutoFix.objExists s p = true → ok p = false →
      AutoFix._warning p msg ∈ (xs.foldl (AutoFix.fixStep s ok msg) acc).1 := by
  intro xs
  induction xs with
  | nil => intro acc p h; simp at h
  | cons x t ih =>
    intro acc p hp hex hok
    rw [List.foldl_cons]
    rcases List.mem_cons.mp hp with h1 | h1
    · subst h1
      refine fixStep_fold_mono s ok msg t _ _ ?_
      rw [AutoFix.fixStep, if_neg (by simp [hex]), if_neg (by simp [hok])]
      exact List.mem_append_right _ (by simp)
    · exact ih _ p h1 hex hok

/-- C10: `run_auto_fix` always returns (its undo-chunk trace is exactly one
open followed by one close, on every path), and per-node freeze / center
failures are recorded as WARNING actions in the returned list instead of
propagating. -/
theorem claim_C10 (s : Scene) (f c d : Bool) :
    (AutoFix.run_auto_fix s f c d).2 = [ChunkEvent.openChunk, ChunkEvent.closeChunk]
    ∧ (∀ p ∈ AutoFix._list_mesh_transforms_long s, f = true →
        AutoFix.objExists s p = true → s.freezeOk p = false →
        AutoFix._warning p "Failed to freeze transforms" ∈ (AutoFix.run_auto_fix s f c d).1)
    ∧ (∀ p ∈ AutoFix._list_mesh_transforms_long s, c = true →
        AutoFix.objExists s p = true → s.centerOk p = false →
        AutoFix._warning p "Failed to center pivot" ∈ (AutoFix.run_auto_fix s f c d).1) := by
  refine ⟨rfl, ?_, ?_⟩
  · intro p hp hf hex hok
    subst hf
    rw [AutoFix.run_auto_fix]
    refine List.mem_append_left _ (List.mem_append_left _ ?_)
    rw [if_pos rfl, AutoFix.freezeActions]
    exact List.mem_append_left _ (fixStep_fold_mem s s.freezeOk _ _ _ p hp hex hok)
  · intro p hp hc hex hok
    subst hc
    rw [AutoFix.run_auto_fix]
    refine List.mem_append_left _ (List.mem_append_right _ ?_)
    rw [if_pos rfl, AutoFix.centerActions]
    exact List.mem_append_left _ (fixStep_fold_mem s s.centerOk _ _ _ p hp hex hok)

/-- Witness for C10: the concrete scene's freeze fails on `|pCube1` and the
warning lands in the action list. -/
theorem claim_C10_witness :
    ("|pCube1" ∈ AutoFix._list_mesh_transforms_long sceneCx
      ∧ AutoFix.objExists sceneCx "|pCube1" = true
      ∧ sceneCx.freezeOk "|pCube1" = false)
    ∧ AutoFix._warning "|pCube1" "Failed to freeze transforms" ∈
        (AutoFix.run_auto_fix sceneCx true true true).1 :=
  ⟨⟨by decide, by decide, by decide⟩,
    (claim_C10 sceneCx true true true).2.1 "|pCube1" (by decide) rfl (by decide) (by decide)⟩

/-- The non-duplicate naming rules only emit the three levels. -/
theorem otherRules_level (t : TransformNode) (r : Result)
    (h : r ∈ NamingChecks.otherRules t) :
    r.level ∈ (["ERROR", "WARNING", "INFO"] : List String) := by
  simp only [NamingChecks.otherRules, List.mem_append, List.mem_flatMap] at h
  rcases h with (h | ⟨sh, _, h | h⟩) | h <;>
    (rw [mem_ite_sing h]
     simp [NamingChecks._error, NamingChecks._warning, NamingChecks._info])

/-- The naming loop only emits the three levels. -/
theorem naming_level : ∀ (l : List TransformNode) (seen : List String) (r : Result),
    r ∈ NamingChecks.run_naming_checksAux l seen →
    r.level ∈ (["ERROR", "WARNING", "INFO"] : List String) := by
  intro l
  induction l with
  | nil => intro seen r h; simp [NamingChecks.run_naming_checksAux] at h
  | cons t rest ih =>
    intro seen r h
    rw [NamingChecks.run_naming_checksAux] at h
    rcases List.mem_append.mp h with h1 | h1
    · rcases List.mem_append.mp h1 with h2 | h2
      · rw [mem_ite_sing h2]; simp [NamingChecks._error]
      · exact otherRules_level t r h2
    · exact ih _ r h1

/-- The pivot rule only emits INFO. -/
theorem pivotPart_level (pt : Rat) (t : TransformNode) (r : Result)
    (h : r ∈ TransformChecks.pivotPart pt t) :
    r.level ∈ (["ERROR", "WARNING", "INFO"] : List String) := by
  rw [TransformChecks.pivotPart] at h
  split at h
  · rw [mem_ite_sing h]; simp [TransformChecks._info]
  · simp at h

/-- One transform-check iteration only emits the three levels. -/
theorem perNode_level (tt rt sc pt : Rat) (t : TransformNode) (r : Result)
    (h : r ∈ TransformChecks.perNode tt rt sc pt t) :
    r.level ∈ (["ERROR", "WARNING", "INFO"] : List String) := by
  simp only [TransformChecks.perNode, List.mem_append] at h
  rcases h with ((h | h) | h) | h
  · rw [mem_ite_sing h]; simp [TransformChecks._warning]
  · rw [mem_ite_sing h]; simp [TransformChecks._warning]
  · rw [mem_ite_sing h]; simp [TransformChecks._warning]
  · exact pivotPart_level pt t r h

/-- `run_transform_checks` only emits the three levels. -/
theorem transform_level (tt rt sc pt : Rat) (s : Scene) (r : Result)
    (h : r ∈ TransformChecks.run_transform_checks tt rt sc pt s) :
    r.level ∈ (["ERROR", "WARNING", "INFO"] : List String) := by
  rw [TransformChecks.run_transform_checks] at h
  rcases List.mem_flatMap.mp h with ⟨p, _, hm⟩
  cases hfind : TransformChecks.findTransform s p with
  | none => rw [hfind] at hm; simp at hm
  | some t => rw [hfind] at hm; exact perNode_level tt rt sc pt t r hm

/-- One geometry-check iteration only emits the three levels. -/
theorem geoShapeResults_level (s : Scene) (m : Nat) (pr : String × ShapeNode) (r : Result)
    (h : r ∈ GeometryChecks.geoShapeResults s m pr) :
    r.level ∈ (["ERROR", "WARNING", "INFO"] : List String) := by
  rw [GeometryChecks.geoShapeResults] at h
  split at h
  · simp at h
  · rcases List.mem_append.mp h with h1 | h1
    · rcases List.mem_append.mp h1 with h2 | h2
      · rcases List.mem_append.mp h2 with h3 | h3
        · rw [mem_ite_sing h3]; simp [GeometryChecks._error]
        · rw [mem_ite_sing h3]; simp [GeometryChecks._error]
      · rw [GeometryChecks.ngonPart] at h2
        rw [mem_ite_sing h2]; simp [GeometryChecks._warning]
    · rw [mem_ite_sing h1]; simp [GeometryChecks._warning]

/-- `run_geometry_checks` only emits the three levels. -/
theorem geometry_level (s : Scene) (m : Nat) (r : Result)
    (h : r ∈ GeometryChecks.run_geometry_checks s m) :
    r.level ∈ (["ERROR", "WARNING", "INFO"] : List String) := by
  rw [GeometryChecks.run_geometry_checks] at h
  rcases List.mem_flatMap.mp h with ⟨pr, _, hm⟩
  exact geoShapeResults_level s m pr r hm

/-- The normalised-path branches of the file-node loop only emit ERROR or
WARNING results. -/
theorem fileNodeNormResults_level (disk : List String) (name path nrm : String) (r : Result)
    (h : r ∈ TextureChecks.fileNodeNormResults disk name path nrm) :
    r.level ∈ (["ERROR", "WARNING", "INFO"] : List String) := by
  rw [TextureChecks.fileNodeNormResults] at h
  split at h
  · split at h
    · simp at h
    · rw [List.mem_singleton.mp h]; simp [TextureChecks._warning]
  · split at h
    · split at h
      · simp at h
      · split at h
        · rw [List.mem_singleton.mp h]; simp [TextureChecks._warning]
        · simp at h
    · split at h
      · simp at h
      · rw [List.mem_singleton.mp h]; simp [TextureChecks._error]

/-- The file-node loop only emits the three levels. -/
theorem fileNodeResults_level (disk : List String) (fn : FileNode) (r : Result)
    (h : r ∈ TextureChecks.fileNodeResults disk fn) :
    r.level ∈ (["ERROR", "WARNING", "INFO"] : List String) := by
  rw [TextureChecks.fileNodeResults] at h
  split at h
  · simp at h
  · split at h
    · rw [List.mem_singleton.mp h]; simp [TextureChecks._error]
    · exact fileNodeNormResults_level _ _ _ _ r h

/-- The mesh-material loop emits only WARNING or INFO. -/
theorem meshMaterialResults_level (s : Scene) (r : Result)
    (h : r ∈ TextureChecks.meshMaterialResults s) :
    r.level = "WARNING" ∨ r.level = "INFO" := by
  rw [TextureChecks.meshMaterialResults] at h
  rcases List.mem_flatMap.mp h with ⟨pr, _, hm⟩
  split at hm
  · simp at hm
  · split at hm
    · rw [List.mem_singleton.mp hm]; left; rfl
    · split at hm
      · rw [List.mem_singleton.mp hm]; right; rfl
      · simp at hm

/-- `run_texture_checks` only emits the three levels. -/
theorem texture_level (s : Scene) (r : Result)
    (h : r ∈ TextureChecks.run_texture_checks s) :
    r.level ∈ (["ERROR", "WARNING", "INFO"] : List String) := by
  rw [TextureChecks.run_texture_checks] at h
  rcases List.mem_append.mp h with h1 | h1
  · rcases List.mem_flatMap.mp h1 with ⟨fn, _, hm⟩
    exact fileNodeResults_level s.diskPaths fn r hm
  · rcases meshMaterialResults_level s r h1 with h2 | h2 <;> simp [h2]

/-- Every action a per-node fix fold adds beyond its accumulator is a WARNING
with the fold's failure message. -/
theorem fixStep_fold_subset (s : Scene) (ok : String → Bool) (msg : String) :
    ∀ (xs : List String) (acc : List Result × Nat) (r : Result),
      r ∈ (xs.foldl (AutoFix.fixStep s ok msg) acc).1 →
      r ∈ acc.1 ∨ ∃ p, r = AutoFix._warning p msg := by
  intro xs
  induction xs with
  | nil => intro acc r h; exact Or.inl h
  | cons x t ih =>
    intro acc r h
    rw [List.foldl_cons] at h
    rcases ih _ r h with h1 | h1
    · rw [AutoFix.fixStep] at h1
      split at h1
      · exact Or.inl h1
      · split at h1
        · exact Or.inl h1
        · rcases List.mem_append.mp h1 with h2 | h2
          · exact Or.inl h2
          · exact Or.inr ⟨x, List.mem_singleton.mp h2⟩
    · exact Or.inr h1

/-- `run_auto_fix` only emits WARNING and INFO actions. -/
theorem autofix_level (s : Scene) (f c d : Bool) (r : Result)
    (h : r ∈ (AutoFix.run_auto_fix s f c d).1) :
    r.level ∈ (["ERROR", "WARNING", "INFO"] : List String) := by
  rw [AutoFix.run_auto_fix] at h
  simp only [List.mem_append] at h
  rcases h with (h | h) | h
  · by_cases hf : f = true
    · rw [if_pos hf, AutoFix.freezeActions] at h
      rcases List.mem_append.mp h with h1 | h1
      · rcases fixStep_fold_subset s s.freezeOk _ _ _ r h1 with h2 | ⟨p, h2⟩
        · simp at h2
        · rw [h2]; simp [AutoFix._warning]
      · rw [List.mem_singleton.mp h1]; simp [AutoFix._info]
    · rw [if_neg hf] at h; simp at h
  · by_cases hc : c = true
    · rw [if_pos hc, AutoFix.centerActions] at h
      rcases List.mem_append.mp h with h1 | h1
      · rcases fixStep_fold_subset s s.centerOk _ _ _ r h1 with h2 | ⟨p, h2⟩
        · simp at h2
        · rw [h2]; simp [AutoFix._warning]
      · rw [List.mem_singleton.mp h1]; simp [AutoFix._info]
    · rw [if_neg hc] at h; simp at h
  · by_cases hd : d = true
    · rw [if_pos hd, AutoFix.deleteActions] at h
      split at h
      · rw [List.mem_singleton.mp h]; simp [AutoFix._info]
      · split at h
        · rw [List.mem_singleton.mp h]; simp [AutoFix._info]
        · rw [List.mem_singleton.mp h]; simp [AutoFix._warning]
    · rw [if_neg hd] at h; simp at h

/-- C8: every element any of the five result-producing functions returns is
a dict with exactly the keys `level`, `node`, `message` (in that order), and
its level is one of ERROR, WARNING, INFO. -/
theorem claim_C8 (s : Scene) (tt rt sc pt : Rat) (m : Nat) (f c d : Bool) (r : Result)
    (h : r ∈ NamingChecks.run_naming_checks s
        ∨ r ∈ TransformChecks.run_transform_checks tt rt sc pt s
        ∨ r ∈ GeometryChecks.run_geometry_checks s m
        ∨ r ∈ TextureChecks.run_texture_checks s
        ∨ r ∈ (AutoFix.run_auto_fix s f c d).1) :
    (Result.toDict r).map Prod.fst = ["level", "node", "message"]
    ∧ r.level ∈ (["ERROR", "WARNING", "INFO"] : List String) := by
  refine ⟨rfl, ?_⟩
  rcases h with h | h | h | h | h
  · exact naming_level s.transforms [] r h
  · exact transform_level tt rt sc pt s r h
  · exact geometry_level s m r h
  · exact texture_level s r h
  · exact autofix_level s f c d r h

/-- Witness for C8 at a concrete naming-check error of the concrete scene. -/
theorem claim_C8_witness :
    (NamingChecks._error "|pCube1" "Object name contains uppercase letters (use lowercase)"
        ∈ NamingChecks.run_naming_checks sceneCx
      ∨ NamingChecks._error "|pCube1" "Object name contains uppercase letters (use lowercase)"
        ∈ TransformChecks.run_transform_checks (mkRat 1 1000) (mkRat 1 100) (mkRat 1 1000)
            (mkRat 1 100) sceneCx
      ∨ NamingChecks._error "|pCube1" "Object name contains uppercase letters (use lowercase)"
        ∈ GeometryChecks.run_geometry_checks sceneCx 4
      ∨ NamingChecks._error "|pCube1" "Object name contains uppercase letters (use lowercase)"
        ∈ TextureChecks.run_texture_checks sceneCx
      ∨ NamingChecks._error "|pCube1" "Object name contains uppercase letters (use lowercase)"
        ∈ (AutoFix.run_auto_fix sceneCx true true true).1)
    ∧ ((Result.toDict (NamingChecks._error "|pCube1"
          "Object name contains uppercase letters (use lowercase)")).map Prod.fst =
            ["level", "node", "message"]
        ∧ (NamingChecks._error "|pCube1"
            "Object name contains uppercase letters (use lowercase)").level ∈
              (["ERROR", "WARNING", "INFO"] : List String)) :=
  ⟨Or.inl (by decide),
    claim_C8 sceneCx (mkRat 1 1000) (mkRat 1 100) (mkRat 1 1000) (mkRat 1 100) 4 true true true
      (NamingChecks._error "|pCube1" "Object name contains uppercase letters (use lowercase)")
      (Or.inl (by decide))⟩

/-- The missing-file message never collides with the empty-path message, for
any path. -/
theorem missing_msg_ne_empty (path : String) :
    ("Missing texture file: " ++ path) ≠ "Texture path is empty" := by
  intro h
  have h2 : ("Missing texture file: ").data ++ path.data = "Texture path is empty".data := by
    rw [← String.data_append, h]
  have h3 : some 'M' = some 'T' := congrArg List.head? h2
  exact absurd (Option.some.inj h3) (by decide)

/-- Every result of the normalised-path branches carries the file node's
name. -/
theorem fileNodeNormResults_node (disk : List String) (name path nrm : String) (r : Result)
    (h : r ∈ TextureChecks.fileNodeNormResults disk name path nrm) : r.node = name := by
  rw [TextureChecks.fileNodeNormResults] at h
  split at h
  · split at h
    · simp at h
    · rw [List.mem_singleton.mp h]; rfl
  · split at h
    · split at h
      · simp at h
      · split at h
        · rw [List.mem_singleton.mp h]; rfl
        · simp at h
    · split at h
      · simp at h
      · rw [List.mem_singleton.mp h]; rfl

/-- Every result of the file-node loop body carries the file node's name. -/
theorem fileNodeResults_node (disk : List String) (fn : FileNode) (r : Result)
    (h : r ∈ TextureChecks.fileNodeResults disk fn) : r.node = fn.name := by
  rw [TextureChecks.fileNodeResults] at h
  split at h
  · simp at h
  · split at h
    · rw [List.mem_singleton.mp h]; rfl
    · exact fileNodeNormResults_node _ _ _ _ r h

/-- With nodewise-unique file-node names, an ERROR for a given file node is
in `run_texture_checks` exactly when that node's own loop body produced it
(the mesh-material loop emits no ERROR). -/
theorem error_mem_run_texture_iff (s : Scene) (fn : FileNode)
    (hnd : (s.fileNodes.map FileNode.name).Nodup) (hfn : fn ∈ s.fileNodes) (msg : String) :
    (TextureChecks._error fn.name msg ∈ TextureChecks.run_texture_checks s) ↔
      TextureChecks._error fn.name msg ∈ TextureChecks.fileNodeResults s.diskPaths fn := by
  rw [TextureChecks.run_texture_checks]
  constructor
  · intro h
    rcases List.mem_append.mp h with h1 | h1
    · rcases List.mem_flatMap.mp h1 with ⟨fn', hfn', hm⟩
      have hname : fn.name = fn'.name := fileNodeResults_node _ _ _ hm
      have heq : fn' = fn := List.inj_on_of_nodup_map hnd hfn' hfn hname.symm
      rwa [heq] at hm
    · exfalso
      rcases meshMaterialResults_level s _ h1 with h2 | h2 <;>
        simp [TextureChecks._error] at h2
  · intro h
    exact List.mem_append.mpr (Or.inl (List.mem_flatMap.mpr ⟨fn, hfn, h⟩))

/-- The empty-path error never comes out of the normalised-path branches. -/
theorem empty_not_mem_norm (disk : List String) (n path nrm : String) :
    TextureChecks._error n "Texture path is empty" ∉
      TextureChecks.fileNodeNormResults disk n path nrm := by
  intro h
  rw [TextureChecks.fileNodeNormResults] at h
  split at h
  · split at h
    · simp at h
    · have := List.mem_singleton.mp h
      simp [TextureChecks._error, TextureChecks._warning] at this
  · split at h
    · split at h
      · simp at h
      · split at h
        · have := List.mem_singleton.mp h
          simp [TextureChecks._error, TextureChecks._warning] at this
        · simp at h
    · split at h
      · simp at h
      · have := List.mem_singleton.mp h
        have hmsg : "Texture path is empty" = "Missing texture file: " ++ path :=
          congrArg Result.message this
        exact missing_msg_ne_empty path hmsg.symm

/-- The file-node loop reports the empty-path error exactly for blank paths. -/
theorem fileNode_empty_iff (disk : List String) (fn : FileNode)
    (hattr : fn.hasFileTextureName = true) :
    (TextureChecks._error fn.name "Texture path is empty" ∈
        TextureChecks.fileNodeResults disk fn) ↔
      isBlank (fn.fileTextureName.getD "") = true := by
  rw [TextureChecks.fileNodeResults, if_neg (by simp [hattr])]
  constructor
  · intro h
    by_cases hb : isBlank (fn.fileTextureName.getD "") = true
    · exact hb
    · exfalso
      rw [if_neg hb] at h
      exact empty_not_mem_norm disk fn.name _ _ h
  · intro hb
    rw [if_pos hb]
    simp

/-- For a non-blank path whose normalisation contains neither `<UDIM>` nor
`1001`, the loop reports the missing-file error exactly when the normalised
path is not on disk. -/
theorem fileNode_missing_iff (disk : List String) (fn : FileNode)
    (hattr : fn.hasFileTextureName = true)
    (hb : isBlank (fn.fileTextureName.getD "") = false)
    (hu : pyContains (pyReplace (fn.fileTextureName.getD "") "\\" "/") "<UDIM>" = false)
    (h1 : pyContains (pyReplace (fn.fileTextureName.getD "") "\\" "/") "1001" = false) :
    (TextureChecks._error fn.name ("Missing texture file: " ++ fn.fileTextureName.getD "")
        ∈ TextureChecks.fileNodeResults disk fn) ↔
      pyReplace (fn.fileTextureName.getD "") "\\" "/" ∉ disk := by
  rw [TextureChecks.fileNodeResults, if_neg (by simp [hattr]), if_neg (by simp [hb]),
    TextureChecks.fileNodeNormResults, if_neg (by simp [hu]), if_neg (by simp [hu, h1])]
  by_cases hd : pyReplace (fn.fileTextureName.getD "") "\\" "/" ∈ disk
  · rw [if_pos hd]
    simp [hd]
  · rw [if_neg hd]
    simp [hd]

/-- A path whose normalisation contains `<UDIM>` or `1001` (a UDIM-style
path) never yields the missing-file error: those branches cap at WARNING. -/
theorem fileNode_udim_no_missing (disk : List String) (fn : FileNode)
    (hattr : fn.hasFileTextureName = true)
    (hor : pyContains (pyReplace (fn.fileTextureName.getD "") "\\" "/") "<UDIM>" = true
      ∨ pyContains (pyReplace (fn.fileTextureName.getD "") "\\" "/") "1001" = true) :
    TextureChecks._error fn.name ("Missing texture file: " ++ fn.fileTextureName.getD "")
      ∉ TextureChecks.fileNodeResults disk fn := by
  intro h
  rw [TextureChecks.fileNodeResults, if_neg (by simp [hattr])] at h
  by_cases hb : isBlank (fn.fileTextureName.getD "") = true
  · rw [if_pos hb] at h
    have := List.mem_singleton.mp h
    have hmsg : "Missing texture file: " ++ fn.fileTextureName.getD "" =
        "Texture path is empty" := congrArg Result.message this
    exact missing_msg_ne_empty _ hmsg
  · rw [if_neg hb, TextureChecks.fileNodeNormResults] at h
    by_cases hu : pyContains (pyReplace (fn.fileTextureName.getD "") "\\" "/") "<UDIM>" = true
    · rw [if_pos hu] at h
      split at h
      · simp at h
      · have := List.mem_singleton.mp h
        simp [TextureChecks._error, TextureChecks._warning] at this
    · have h1 : pyContains (pyReplace (fn.fileTextureName.getD "") "\\" "/") "1001" = true := by
        rcases hor with h2 | h2
        · exact absurd h2 hu
        · exact h2
      rw [if_neg hu, if_pos (by simp [h1])] at h
      split at h
      · simp at h
      · split at h
        · have := List.mem_singleton.mp h
          simp [TextureChecks._error, TextureChecks._warning] at this
        · simp at h

/-- Counterexample to C6 as stated: a whitespace-only path (here `" "`)
contains neither `<UDIM>` nor `1001` and does not exist on disk, yet
`run_texture_checks` does not report the missing-file ERROR for it (it takes
the empty-path branch and continues), so the claimed "if and only if" fails. -/
theorem claim_C6_counterexample :
    (⟨"file1", true, some " "⟩ : FileNode) ∈ sceneC6.fileNodes
    ∧ pyContains (pyReplace " " "\\" "/") "<UDIM>" = false
    ∧ pyContains (pyReplace " " "\\" "/") "1001" = false
    ∧ pyReplace " " "\\" "/" ∉ sceneC6.diskPaths
    ∧ ¬ ((TextureChecks._error "file1" ("Missing texture file: " ++ " ")
          ∈ TextureChecks.run_texture_checks sceneC6)
        ↔ pyReplace " " "\\" "/" ∉ sceneC6.diskPaths) := by
  decide

/-- C6 amended: for every file node (names unique, as Maya guarantees) with
the `fileTextureName` attribute, `run_texture_checks` reports the
"Texture path is empty" ERROR exactly when the path is empty or
whitespace-only; for a path that is NOT whitespace-only and whose normalised
form contains neither `<UDIM>` nor `1001`, it reports the
"Missing texture file" ERROR exactly when the normalised path does not exist
on disk; and UDIM-style paths never get that ERROR. -/
theorem claim_C6_amended (s : Scene) (fn : FileNode)
    (hnd : (s.fileNodes.map FileNode.name).Nodup) (hfn : fn ∈ s.fileNodes)
    (hattr : fn.hasFileTextureName = true) :
    ((TextureChecks._error fn.name "Texture path is empty"
        ∈ TextureChecks.run_texture_checks s)
      ↔ isBlank (fn.fileTextureName.getD "") = true)
    ∧ (isBlank (fn.fileTextureName.getD "") = false →
        pyContains (pyReplace (fn.fileTextureName.getD "") "\\" "/") "<UDIM>" = false →
        pyContains (pyReplace (fn.fileTextureName.getD "") "\\" "/") "1001" = false →
        ((TextureChecks._error fn.name
            ("Missing texture file: " ++ fn.fileTextureName.getD "")
              ∈ TextureChecks.run_texture_checks s)
          ↔ pyReplace (fn.fileTextureName.getD "") "\\" "/" ∉ s.diskPaths))
    ∧ ((pyContains (pyReplace (fn.fileTextureName.getD "") "\\" "/") "<UDIM>" = true
          ∨ pyContains (pyReplace (fn.fileTextureName.getD "") "\\" "/") "1001" = true) →
        TextureChecks._error fn.name ("Missing texture file: " ++ fn.fileTextureName.getD "")
          ∉ TextureChecks.run_texture_checks s) := by
  refine ⟨?_, ?_, ?_⟩
  · exact (error_mem_run_texture_iff s fn hnd hfn _).trans (fileNode_empty_iff s.diskPaths fn hattr)
  · intro hb hu h1
    exact (error_mem_run_texture_iff s fn hnd hfn _).trans
      (fileNode_missing_iff s.diskPaths fn hattr hb hu h1)
  · intro hor hmem
    exact fileNode_udim_no_missing s.diskPaths fn hattr hor
      ((error_mem_run_texture_iff s fn hnd hfn _).mp hmem)

/-- Witness for the amended C6 at a concrete missing plain texture path. -/
theorem claim_C6_witness :
    ((sceneCx.fileNodes.map FileNode.name).Nodup
      ∧ (⟨"file1", true, some "tex.png"⟩ : FileNode) ∈ sceneCx.fileNodes
      ∧ isBlank ((⟨"file1", true, some "tex.png"⟩ : FileNode).fileTextureName.getD "") = false
      ∧ pyContains (pyReplace "tex.png" "\\" "/") "<UDIM>" = false
      ∧ pyContains (pyReplace "tex.png" "\\" "/") "1001" = false)
    ∧ ((TextureChecks._error "file1" ("Missing texture file: " ++ "tex.png")
          ∈ TextureChecks.run_texture_checks sceneCx)
        ↔ pyReplace "tex.png" "\\" "/" ∉ sceneCx.diskPaths) :=
  ⟨⟨by decide, by decide, by decide, by decide, by decide⟩,
    (claim_C6_amended sceneCx ⟨"file1", true, some "tex.png"⟩
      (by decide) (by decide) rfl).2.1 (by decide) (by decide) (by decide)⟩

end AssetValidator
